import Mathlib

/-!
Shallow embedding of the LangConnect MCP control plane
(src/langconnect: models/mcp_server.py, services/mcp_registry.py,
services/docker_manager.py, services/auth_manager.py, api/mcp_controller.py),
together with theorems settling the specification claims.

Python dictionaries are modelled as association lists, machine integers and
Python ints as Nat or Int, floats as exact rationals, datetimes as integer
UTC timestamps (seconds), and network or container-runtime round trips as
explicit oracle arguments describing the response of the external system.
-/

/- ## Basic data model (models/mcp_server.py) -/

/-- ServerStatus enumeration (models/mcp_server.py lines 14-22). -/
inductive ServerStatus
  | stopped
  | starting
  | running
  | stopping
  | error
  | unhealthy
deriving DecidableEq, Fintype

/-- The string value of each ServerStatus member. -/
def ServerStatus.value : ServerStatus → String
  | .stopped => "stopped"
  | .starting => "starting"
  | .running => "running"
  | .stopping => "stopping"
  | .error => "error"
  | .unhealthy => "unhealthy"

/-- ServerTransport enumeration (models/mcp_server.py lines 25-30). -/
inductive ServerTransport
  | stdio
  | sse
  | http
deriving DecidableEq, Fintype

/-- The string value of each ServerTransport member. -/
def ServerTransport.value : ServerTransport → String
  | .stdio => "stdio"
  | .sse => "sse"
  | .http => "http"

/- ## Association-list model of Python dicts -/

/-- Lookup in a Python dict modelled as an association list (first match;
a dict holds at most one entry per key). -/
def alist_get {α : Type} : List (String × α) → String → Option α
  | [], _ => none
  | p :: ps, k => if p.1 = k then some p.2 else alist_get ps k

/-- Assignment d[k] = v on a Python dict: overwrite in place if the key is
present, else append the new binding at the end (insertion order preserved). -/
def alist_set {α : Type} (d : List (String × α)) (k : String) (v : α) :
    List (String × α) :=
  if (alist_get d k).isSome then
    d.map (fun p => if p.1 = k then (k, v) else p)
  else d ++ [(k, v)]

/-- Python dict construction of the shape a-entries-then-unpacked-b: start
from a and assign every binding of b in order, so b wins on common keys. -/
def alist_merge {α : Type} (a b : List (String × α)) : List (String × α) :=
  b.foldl (fun d p => alist_set d p.1 p.2) a

/-- String-to-string environment dictionary. -/
abbrev EnvDict := List (String × String)

-- Decidable equality for Except values, used to evaluate validator
-- results on concrete inputs.
deriving instance DecidableEq for Except

/- ## Server configuration and status records -/

/-- MCPServerConfig (models/mcp_server.py lines 33-59).  The
middleware_config value is dict[str, Any]; only its string-valued fragment
is needed by the claims, so it is modelled as an EnvDict. -/
structure MCPServerConfig where
  name : String
  description : String
  transport : ServerTransport
  port : Nat
  environment : EnvDict
  docker_image : String
  memory_limit : String
  cpu_limit : ℚ
  restart_policy : String
  volumes : List String
  labels : EnvDict
  middleware_config : EnvDict
deriving DecidableEq

/-- Python str.isalnum on the character list of a string (ASCII fragment:
every character used by the claims is ASCII, where isalnum agrees with
Char.isAlphanum; the empty string is not alnum). -/
def py_isalnum (l : List Char) : Bool :=
  !l.isEmpty && l.all Char.isAlphanum

/-- Python str.lower modelled character-wise (ASCII fragment: on the
ASCII names handled by the claims, str.lower lowercases each character
independently, which is what Char.toLower does). -/
def py_lower (s : String) : String :=
  ⟨s.data.map Char.toLower⟩

/-- MCPServerConfig.validate_name (models/mcp_server.py lines 61-67):
reject when the name is empty or when the name with every dash and
underscore removed is not alnum; otherwise return the lowercased name.
The filter models the two str.replace calls that delete dashes and
underscores. -/
def validate_name (v : String) : Except String String :=
  if v.data.isEmpty
      || !(py_isalnum (v.data.filter (fun c => !(c == '-') && !(c == '_')))) then
    .error "Server name must be alphanumeric with - or _"
  else
    .ok (py_lower v)

/-- Resource usage statistics dictionary produced by the stats sampler
(docker_manager.py lines 468-473). -/
structure ResourceStats where
  cpu_percent : ℚ
  memory_usage_mb : ℚ
  memory_limit_mb : ℚ
  memory_percent : ℚ
deriving DecidableEq

/-- MCPServerStatus (models/mcp_server.py lines 95-109).  Datetimes are
integer UTC timestamps; resource_usage is none when the stats dict is
empty. -/
structure MCPServerStatus where
  server_id : String
  status : ServerStatus
  container_id : Option String
  started_at : Option Int
  stopped_at : Option Int
  health_check_passed : Bool
  last_health_check : Option Int
  error_message : Option String
  resource_usage : Option ResourceStats
deriving DecidableEq

/-- MCPServer (models/mcp_server.py lines 112-140). -/
structure MCPServer where
  id : String
  config : MCPServerConfig
  status : MCPServerStatus
  created_at : Int
  updated_at : Int
  created_by : String
deriving DecidableEq

/-- MCPServer.container_name property. -/
def MCPServer.container_name (s : MCPServer) : String :=
  "mcp-" ++ s.config.name

/-- MCPServer.can_start property: status in [STOPPED, ERROR]. -/
def MCPServer.can_start (s : MCPServer) : Bool :=
  s.status.status == .stopped || s.status.status == .error

/-- MCPServer.can_stop property: status in [RUNNING, UNHEALTHY]. -/
def MCPServer.can_stop (s : MCPServer) : Bool :=
  s.status.status == .running || s.status.status == .unhealthy

/-- MCPServerCreate request model (models/mcp_server.py lines 70-81);
port is optional and auto-assigned when absent. -/
structure MCPServerCreate where
  name : String
  description : String
  transport : ServerTransport
  port : Option Nat
  environment : EnvDict
  docker_image : String
  memory_limit : String
  cpu_limit : ℚ
  middleware_config : EnvDict
deriving DecidableEq

/-- MCPServerUpdate request model (models/mcp_server.py lines 84-92).
A field is none when it is absent from the patch or explicitly null; in
both cases update_server leaves the config field unchanged, so the two
cases are observationally identical. -/
structure MCPServerUpdate where
  description : Option String
  environment : Option EnvDict
  memory_limit : Option String
  cpu_limit : Option ℚ
  middleware_config : Option EnvDict
  restart_policy : Option String
deriving DecidableEq

/- ## Registry (services/mcp_registry.py) -/

/-- Registry state: the rows of the mcp_servers table, in insertion order. -/
abbrev RegState := List MCPServer

/-- MCPRegistry.get_server (mcp_registry.py lines 162-179): row lookup by id. -/
def get_server (st : RegState) (server_id : String) : Option MCPServer :=
  st.find? (fun r => r.id == server_id)

/-- The set of currently stored config.port values read by the port
allocator (mcp_registry.py lines 353-364); dedup models the Python set. -/
def used_ports (st : RegState) : List Nat :=
  (st.map (fun r => r.config.port)).dedup

/-- The while loop of _get_next_available_port, with explicit fuel: starting
at port, return the first candidate not contained in used. -/
def next_port_loop : Nat → List Nat → Nat → Nat
  | 0, _, port => port
  | fuel + 1, used, port =>
    if used.contains port then next_port_loop fuel used (port + 1) else port

/-- MCPRegistry._get_next_available_port (mcp_registry.py lines 344-371):
linear scan from start_port over the used-port set.  The fuel bound
max(used) + 2 - start_port covers every iteration the Python while loop can
make, so the fuelled loop computes the same port as the source loop. -/
def get_next_available_port (used : List Nat) (start_port : Nat) : Nat :=
  next_port_loop (used.foldr Nat.max start_port + 2 - start_port) used start_port

/-- Error kinds raised by register_server: the pydantic ValidationError from
config construction and the ValueError raised on unique-name violation
(both are ValueError subclasses for the controller). -/
inductive RegError
  | validation (msg : String)
  | nameConflict (msg : String)
deriving DecidableEq

/-- The fresh Stopped status built by register_server (mcp_registry.py
lines 127-130). -/
def initial_status (server_id : String) : MCPServerStatus :=
  { server_id := server_id
    status := .stopped
    container_id := none
    started_at := none
    stopped_at := none
    health_check_passed := false
    last_health_check := none
    error_message := none
    resource_usage := none }

/-- MCPRegistry.register_server (mcp_registry.py lines 92-160).  server_id
stands for the generated uuid4 and now for datetime.utcnow().  Port
auto-assignment happens before config construction; config construction
validates the name (and the pydantic range constraints on port and
cpu_limit); insertion fails on a duplicate name. -/
def register_server (st : RegState) (server_create : MCPServerCreate)
    (user_id server_id : String) (now : Int) :
    Except RegError (RegState × MCPServer) :=
  let port := match server_create.port with
    | some p => p
    | none => get_next_available_port (used_ports st) 8765
  match validate_name server_create.name with
  | .error msg => .error (.validation msg)
  | .ok vname =>
    if !(1024 ≤ port && port ≤ 65535) then
      .error (.validation "Input should be less than or equal to 65535 and greater than or equal to 1024")
    else if !(0 < server_create.cpu_limit && server_create.cpu_limit ≤ 4) then
      .error (.validation "Input should be greater than 0 and less than or equal to 4")
    else
      let config : MCPServerConfig :=
        { name := vname
          description := server_create.description
          transport := server_create.transport
          port := port
          environment := server_create.environment
          docker_image := server_create.docker_image
          memory_limit := server_create.memory_limit
          cpu_limit := server_create.cpu_limit
          restart_policy := "unless-stopped"
          volumes := []
          labels := []
          middleware_config := server_create.middleware_config }
      let server : MCPServer :=
        { id := server_id
          config := config
          status := initial_status server_id
          created_at := now
          updated_at := now
          created_by := user_id }
      if st.any (fun r => r.config.name == config.name) then
        .error (.nameConflict ("Server name " ++ server_create.name ++ " already exists"))
      else
        .ok (st ++ [server], server)

/-- MCPRegistry.update_server (mcp_registry.py lines 261-296) field loop:
apply each patch field onto the config, skipping fields whose value is
None. -/
def apply_update (cfg : MCPServerConfig) (u : MCPServerUpdate) : MCPServerConfig :=
  { cfg with
    description := u.description.getD cfg.description
    environment := u.environment.getD cfg.environment
    memory_limit := u.memory_limit.getD cfg.memory_limit
    cpu_limit := u.cpu_limit.getD cfg.cpu_limit
    middleware_config := u.middleware_config.getD cfg.middleware_config
    restart_policy := u.restart_policy.getD cfg.restart_policy }

/-- MCPRegistry.update_server (mcp_registry.py lines 261-296): read the
record, patch the config, write the config column back (the database
trigger defined in _create_tables bumps updated_at on every UPDATE), then
re-read and return the record.  now models NOW() seen by the trigger. -/
def update_server (st : RegState) (server_id : String) (u : MCPServerUpdate)
    (now : Int) : Option (RegState × MCPServer) :=
  match get_server st server_id with
  | none => none
  | some server =>
    let cfg2 := apply_update server.config u
    let st2 := st.map (fun r =>
      if r.id == server_id then { r with config := cfg2, updated_at := now } else r)
    match get_server st2 server_id with
    | none => none
    | some out => some (st2, out)

/-- MCPRegistry.update_server_status (mcp_registry.py lines 298-322):
replace the status column of the row (the database trigger bumps
updated_at). -/
def update_server_status (st : RegState) (server_id : String)
    (status : MCPServerStatus) (now : Int) : RegState :=
  st.map (fun r =>
    if r.id == server_id then { r with status := status, updated_at := now } else r)

/-- MCPRegistry.delete_server (mcp_registry.py lines 324-342): drop the row. -/
def delete_server (st : RegState) (server_id : String) : RegState :=
  st.filter (fun r => !(r.id == server_id))

/- ## Container Supervisor (services/docker_manager.py) -/

/-- The fixed environment entries prepared by create_container
(docker_manager.py lines 72-78) before config.environment is unpacked over
them. -/
def fixed_env (server_id : String) (config : MCPServerConfig) : EnvDict :=
  [("MCP_SERVER_NAME", config.name),
   ("MCP_SERVER_ID", server_id),
   ("MCP_TRANSPORT", config.transport.value),
   ("MCP_PORT", toString config.port)]

/-- json.dumps on the string-valued middleware dict. -/
def json_dumps (d : EnvDict) : String :=
  "\x7b" ++ String.intercalate ", "
    (d.map (fun p => "\"" ++ p.1 ++ "\": \"" ++ p.2 ++ "\"")) ++ "\x7d"

/-- The environment dictionary passed to the container runtime by
create_container (docker_manager.py lines 71-84): the four fixed keys with
config.environment unpacked after them, then MCP_MIDDLEWARE_CONFIG when
middleware_config is non-empty. -/
def build_environment (server_id : String) (config : MCPServerConfig) : EnvDict :=
  let environment := alist_merge (fixed_env server_id config) config.environment
  if !config.middleware_config.isEmpty then
    alist_set environment "MCP_MIDDLEWARE_CONFIG" (json_dumps config.middleware_config)
  else
    environment

/-- Outcome of the container-runtime call made by create_container, given
as an oracle: the runtime either creates the container, raises
ImageNotFound, or raises some other exception. -/
inductive CreateOutcome
  | created (container_id : String)
  | imageNotFound
  | exn (msg : String)
deriving DecidableEq

/-- DockerManager.create_container (docker_manager.py lines 51-136):
returns (container_id, status); on success a Stopped status carrying the
container id, on ImageNotFound or any other exception the empty id and an
Error status carrying the message. -/
def create_container (server_id : String) (config : MCPServerConfig)
    (res : CreateOutcome) : String × MCPServerStatus :=
  match res with
  | .created cid =>
    (cid,
      { server_id := server_id
        status := .stopped
        container_id := some cid
        started_at := none
        stopped_at := none
        health_check_passed := false
        last_health_check := none
        error_message := none
        resource_usage := none })
  | .imageNotFound =>
    ("",
      { server_id := server_id
        status := .error
        container_id := none
        started_at := none
        stopped_at := none
        health_check_passed := false
        last_health_check := none
        error_message := some ("Docker image not found: " ++ config.docker_image)
        resource_usage := none })
  | .exn msg =>
    ("",
      { server_id := server_id
        status := .error
        container_id := none
        started_at := none
        stopped_at := none
        health_check_passed := false
        last_health_check := none
        error_message := some msg
        resource_usage := none })

/-- Outcome of the runtime calls made by start_container, as an oracle:
lookup failure, a started container (carrying the server-id label read
back from the container), a container whose status after start is not
running, or an exception. -/
inductive StartOutcome
  | notFound
  | started (label : String)
  | failed (label runtime_status : String)
  | exn (msg : String)
deriving DecidableEq

/-- DockerManager.start_container (docker_manager.py lines 138-184). -/
def start_container (container_id : String) (now : Int) (res : StartOutcome) :
    MCPServerStatus :=
  match res with
  | .notFound =>
    { server_id := ""
      status := .error
      container_id := none
      started_at := none
      stopped_at := none
      health_check_passed := false
      last_health_check := none
      error_message := some "Container not found"
      resource_usage := none }
  | .started label =>
    { server_id := label
      status := .running
      container_id := some container_id
      started_at := some now
      stopped_at := none
      health_check_passed := false
      last_health_check := none
      error_message := none
      resource_usage := none }
  | .failed label runtime_status =>
    { server_id := label
      status := .error
      container_id := some container_id
      started_at := none
      stopped_at := none
      health_check_passed := false
      last_health_check := none
      error_message := some ("Container failed to start: " ++ runtime_status)
      resource_usage := none }
  | .exn msg =>
    { server_id := ""
      status := .error
      container_id := none
      started_at := none
      stopped_at := none
      health_check_passed := false
      last_health_check := none
      error_message := some msg
      resource_usage := none }

/-- Outcome of the runtime calls made by stop_container, as an oracle. -/
inductive StopOutcome
  | notFound
  | stopped (label : String)
  | exn (msg : String)
deriving DecidableEq

/-- DockerManager.stop_container (docker_manager.py lines 186-224). -/
def stop_container (container_id : String) (now : Int) (res : StopOutcome) :
    MCPServerStatus :=
  match res with
  | .notFound =>
    { server_id := ""
      status := .error
      container_id := none
      started_at := none
      stopped_at := none
      health_check_passed := false
      last_health_check := none
      error_message := some "Container not found"
      resource_usage := none }
  | .stopped label =>
    { server_id := label
      status := .stopped
      container_id := some container_id
      started_at := none
      stopped_at := some now
      health_check_passed := false
      last_health_check := none
      error_message := none
      resource_usage := none }
  | .exn msg =>
    { server_id := ""
      status := .error
      container_id := none
      started_at := none
      stopped_at := none
      health_check_passed := false
      last_health_check := none
      error_message := some msg
      resource_usage := none }

/-- Outcome of the runtime calls made by restart_container, as an oracle. -/
inductive RestartOutcome
  | notFound
  | running (label : String)
  | failed (label runtime_status : String)
  | exn (msg : String)
deriving DecidableEq

/-- DockerManager.restart_container (docker_manager.py lines 226-277). -/
def restart_container (container_id : String) (now : Int) (res : RestartOutcome) :
    MCPServerStatus :=
  match res with
  | .notFound =>
    { server_id := ""
      status := .error
      container_id := none
      started_at := none
      stopped_at := none
      health_check_passed := false
      last_health_check := none
      error_message := some "Container not found"
      resource_usage := none }
  | .running label =>
    { server_id := label
      status := .running
      container_id := some container_id
      started_at := some now
      stopped_at := none
      health_check_passed := false
      last_health_check := none
      error_message := none
      resource_usage := none }
  | .failed label runtime_status =>
    { server_id := label
      status := .error
      container_id := some container_id
      started_at := none
      stopped_at := none
      health_check_passed := false
      last_health_check := none
      error_message := some ("Container failed to restart: " ++ runtime_status)
      resource_usage := none }
  | .exn msg =>
    { server_id := ""
      status := .error
      container_id := none
      started_at := none
      stopped_at := none
      health_check_passed := false
      last_health_check := none
      error_message := some msg
      resource_usage := none }

/-- Runtime-side view of a container used by health_check: its status word
and, when a runtime-native health check is configured, the health verdict
with the output of the last health log entry. -/
structure ContainerHealthView where
  runtime_status : String
  health : Option (String × String)
deriving DecidableEq

/-- DockerManager.health_check (docker_manager.py lines 387-421): not
found or not running is unhealthy with a reason; a configured native
health check yields its verdict, with the last health log line on failure;
otherwise healthy by presumption. -/
def health_check (c : Option ContainerHealthView) : Bool × Option String :=
  match c with
  | none => (false, some "Container not found")
  | some cs =>
    if cs.runtime_status ≠ "running" then
      (false, some ("Container is " ++ cs.runtime_status))
    else
      match cs.health with
      | some (hstatus, last_log) =>
        if hstatus = "healthy" then (true, none)
        else (false, some ("Health check " ++ hstatus ++ ": " ++ last_log))
      | none => (true, none)

/-- Python round(x, 2) over exact rationals: round half to even at two
decimal places (docker_manager.py lines 469-472). -/
def round2 (x : ℚ) : ℚ :=
  let y := x * 100
  let f : Int := ⌊y⌋
  let r := y - f
  let n : Int :=
    if r < 1/2 then f
    else if r > 1/2 then f + 1
    else if f % 2 = 0 then f else f + 1
  (n : ℚ) / 100

/-- One stats sample as read by _get_container_stats: current and previous
CPU counters, current and previous system CPU counters, memory usage and
limit. -/
structure StatsSample where
  cpu_total : Int
  precpu_total : Int
  system_cpu : Int
  presystem_cpu : Int
  memory_usage : Int
  memory_limit : Int
deriving DecidableEq

/-- DockerManager._get_container_stats (docker_manager.py lines 444-477):
CPU percent is delta over system delta times 100 when the system delta is
positive, else 0; memory percent is usage over limit times 100; outputs
rounded to two decimals.  A zero memory limit raises ZeroDivisionError,
which the enclosing except returns as the empty dict (none). -/
def get_container_stats (s : StatsSample) : Option ResourceStats :=
  let cpu_delta : ℚ := ((s.cpu_total - s.precpu_total : Int) : ℚ)
  let system_delta : ℚ := ((s.system_cpu - s.presystem_cpu : Int) : ℚ)
  let cpu_percent : ℚ := if system_delta > 0 then cpu_delta / system_delta * 100 else 0
  if s.memory_limit = 0 then none
  else
    let memory_percent : ℚ := (s.memory_usage : ℚ) / (s.memory_limit : ℚ) * 100
    some
      { cpu_percent := round2 cpu_percent
        memory_usage_mb := round2 ((s.memory_usage : ℚ) / 1024 / 1024)
        memory_limit_mb := round2 ((s.memory_limit : ℚ) / 1024 / 1024)
        memory_percent := round2 memory_percent }

/- ## Auth Token Manager (services/auth_manager.py) -/

/-- AuthToken (auth_manager.py lines 21-28); expires_at is a UTC timestamp
in seconds. -/
structure AuthToken where
  access_token : String
  refresh_token : Option String
  expires_at : Int
  user_id : String
  user_email : String
deriving DecidableEq

/-- The in-memory token cache keyed by user id. -/
abbrev TokenCache := List (String × AuthToken)

/-- The decoded body of a successful refresh response: the new access
token, the optional new refresh token, and the exp and sub claims decoded
from the access token. -/
structure RefreshResponse where
  access_token : String
  refresh_token : Option String
  exp : Int
  sub : String
deriving DecidableEq

/-- Outcome of the network round trip inside refresh_token, as an oracle:
a 200 response that decodes, a non-200 response, or a raised exception
(caught by the enclosing except). -/
inductive RefreshOutcome
  | ok (resp : RefreshResponse)
  | httpFail
  | exn (msg : String)
deriving DecidableEq

/-- AuthManager.refresh_token (auth_manager.py lines 99-149): no cached
token or no stored refresh token returns none; a non-200 response or an
exception returns none; on success the cache entry is replaced (keeping
the old refresh token when the provider omits a new one) and the new token
returned. -/
def refresh_token (cache : TokenCache) (user_id : String) (net : RefreshOutcome) :
    Option AuthToken × TokenCache :=
  match alist_get cache user_id with
  | none => (none, cache)
  | some current_token =>
    match current_token.refresh_token with
    | none => (none, cache)
    | some _ =>
      match net with
      | .httpFail => (none, cache)
      | .exn _ => (none, cache)
      | .ok resp =>
        let new_token : AuthToken :=
          { access_token := resp.access_token
            refresh_token :=
              match resp.refresh_token with
              | some r => some r
              | none => current_token.refresh_token
            expires_at := resp.exp
            user_id := resp.sub
            user_email := current_token.user_email }
        (some new_token, alist_set cache user_id new_token)

/-- AuthManager.get_token (auth_manager.py lines 151-172): none when no
token is cached; an inline refresh when now is at or past expires_at minus
the five-minute (300 s) buffer, returning the refreshed access token or
none; otherwise the cached access token. -/
def get_token (cache : TokenCache) (now : Int) (user_id : String)
    (net : RefreshOutcome) : Option String × TokenCache :=
  match alist_get cache user_id with
  | none => (none, cache)
  | some token =>
    if token.expires_at - 300 ≤ now then
      match refresh_token cache user_id net with
      | (none, c2) => (none, c2)
      | (some t2, c2) => (some t2.access_token, c2)
    else
      (some token.access_token, cache)

/- ## Controller (api/mcp_controller.py) -/

/-- An HTTP outcome of a handler: a success body or an HTTPException-style
status code with detail. -/
inductive HttpResp (α : Type)
  | ok (body : α)
  | err (code : Nat) (detail : String)
deriving DecidableEq

/-- ServerActionResponse (mcp_controller.py lines 63-68). -/
structure ActionResponse where
  success : Bool
  message : String
  server : Option MCPServer
deriving DecidableEq

/-- A call made to the container runtime by a handler, recorded so that
absence of container side effects is provable. -/
inductive DockerCall
  | createCall (server_id : String)
  | startCall (container_id : String)
  | stopCall (container_id : String)
  | restartCall (container_id : String)
  | removeCall (container_id : String)
deriving DecidableEq

/-- create_server endpoint (mcp_controller.py lines 91-122).  Registry
register, then Supervisor create; when the Supervisor status is Error the
registry record is deleted and HTTPException(500, status.error_message) is
raised, but that exception is caught by the blanket except Exception
clause of the handler, which re-raises HTTPException(500, "Failed to
create server"); a ValueError from register surfaces as 400 with its
message. -/
def create_server (st : RegState) (server_create : MCPServerCreate)
    (user_id server_id : String) (dres : CreateOutcome) (now : Int) :
    RegState × HttpResp MCPServer :=
  match register_server st server_create user_id server_id now with
  | .error (.validation msg) => (st, .err 400 msg)
  | .error (.nameConflict msg) => (st, .err 400 msg)
  | .ok (st1, server) =>
    let (_cid, status) := create_container server.id server.config dres
    if status.status == .error then
      (delete_server st1 server.id, .err 500 "Failed to create server")
    else
      let status2 := { status with server_id := server.id }
      let st2 := update_server_status st1 server.id status2 now
      match get_server st2 server.id with
      | some out => (st2, .ok out)
      | none => (st2, .err 500 "Failed to create server")

/-- The token patch performed by start_server and restart_server on the
in-memory record (mcp_controller.py lines 225-228 and 315-320): write the
fresh access token into config.environment under SUPABASE_JWT_SECRET. -/
def patch_token_env (server : MCPServer) (t : String) : MCPServer :=
  { server with config := { server.config with environment := alist_set server.config.environment "SUPABASE_JWT_SECRET" t } }

/-- The 400 detail with which start_server refuses a server that cannot be
started, naming the observed state (mcp_controller.py lines 218-222); the
enum member rendering is modelled by its value string. -/
def start_refusal_detail (s : ServerStatus) : String :=
  "Server cannot be started from " ++ s.value ++ " state"

/-- The 400 detail with which stop_server refuses a server that cannot be
stopped (mcp_controller.py lines 270-274). -/
def stop_refusal_detail (s : ServerStatus) : String :=
  "Server cannot be stopped from " ++ s.value ++ " state"

/-- Shared tail of start_server after the container exists
(mcp_controller.py lines 238-251): start the container, persist the
returned status, re-read the server and build the action response. -/
def finish_start (st : RegState) (server_id container_id : String)
    (sres : StartOutcome) (now : Int) (calls : List DockerCall) :
    RegState × List DockerCall × HttpResp ActionResponse :=
  let status := start_container container_id now sres
  let st2 := update_server_status st server_id status now
  let after := get_server st2 server_id
  let name := match after with
    | some s2 => s2.config.name
    | none => ""
  (st2, calls ++ [.startCall container_id],
    .ok
      { success := status.status == .running
        message :=
          if status.status == .running then
            "Server " ++ name ++ " started successfully"
          else
            "Failed to start server: " ++ ((status.error_message).getD "None")
        server := after })

/-- start_server endpoint (mcp_controller.py lines 201-251): 404 when the
record is missing, 403 on ownership mismatch, 400 when can_start is false;
then the fresh token (tok, the Auth Manager get_token result) is written
into the in-memory environment, the container is created first when no
container_id exists (a Supervisor Error surfacing as 500 with its
message), the container started and the status persisted. -/
def start_server (st : RegState) (user_id server_id : String)
    (tok : Option String) (cres : CreateOutcome) (sres : StartOutcome)
    (now : Int) : RegState × List DockerCall × HttpResp ActionResponse :=
  match get_server st server_id with
  | none => (st, [], .err 404 "Server not found")
  | some server =>
    if server.created_by ≠ user_id then
      (st, [], .err 403 "Access denied")
    else if !server.can_start then
      (st, [], .err 400 (start_refusal_detail server.status.status))
    else
      let server1 := match tok with
        | some t => patch_token_env server t
        | none => server
      match server1.status.container_id with
      | none =>
        let (cid, cstatus) := create_container server1.id server1.config cres
        if cstatus.status == .error then
          (st, [.createCall server1.id], .err 500 ((cstatus.error_message).getD "None"))
        else
          finish_start st server1.id cid sres now [.createCall server1.id]
      | some cid => finish_start st server1.id cid sres now []

/-- stop_server endpoint (mcp_controller.py lines 254-292): 404, 403, 400
when can_stop is false, 400 when no container exists; then stop the
container and persist the returned status. -/
def stop_server (st : RegState) (user_id server_id : String)
    (sres : StopOutcome) (now : Int) :
    RegState × List DockerCall × HttpResp ActionResponse :=
  match get_server st server_id with
  | none => (st, [], .err 404 "Server not found")
  | some server =>
    if server.created_by ≠ user_id then
      (st, [], .err 403 "Access denied")
    else if !server.can_stop then
      (st, [], .err 400 (stop_refusal_detail server.status.status))
    else
      match server.status.container_id with
      | none => (st, [], .err 400 "No container found for server")
      | some cid =>
        let status := stop_container cid now sres
        let st2 := update_server_status st server.id status now
        let after := get_server st2 server.id
        let name := match after with
          | some s2 => s2.config.name
          | none => ""
        (st2, [.stopCall cid],
          .ok
            { success := status.status == .stopped
              message :=
                if status.status == .stopped then
                  "Server " ++ name ++ " stopped successfully"
                else
                  "Failed to stop server: " ++ ((status.error_message).getD "None")
              server := after })

/-- restart_server endpoint (mcp_controller.py lines 295-335): 404, 403,
400 only when no container_id exists; there is no lifecycle-state gate.
The fresh token is written into the in-memory environment, then the
container is restarted and the returned status persisted. -/
def restart_server (st : RegState) (user_id server_id : String)
    (tok : Option String) (rres : RestartOutcome) (now : Int) :
    RegState × List DockerCall × HttpResp ActionResponse :=
  match get_server st server_id with
  | none => (st, [], .err 404 "Server not found")
  | some server =>
    if server.created_by ≠ user_id then
      (st, [], .err 403 "Access denied")
    else
      match server.status.container_id with
      | none => (st, [], .err 400 "No container found for server")
      | some cid =>
        let _server1 := match tok with
          | some t => patch_token_env server t
          | none => server
        let status := restart_container cid now rres
        let st2 := update_server_status st server.id status now
        let after := get_server st2 server.id
        let name := match after with
          | some s2 => s2.config.name
          | none => ""
        (st2, [.restartCall cid],
          .ok
            { success := status.status == .running
              message :=
                if status.status == .running then
                  "Server " ++ name ++ " restarted successfully"
                else
                  "Failed to restart server: " ++ ((status.error_message).getD "None")
              server := after })

/-- check_server_health endpoint (mcp_controller.py lines 413-443): 404,
403; without a container_id it returns the healthy-false body; otherwise
it performs the Supervisor health check (hc), mutates the in-memory
status, and then evaluates datetime.utcnow() at line 437 -- but the module
api/mcp_controller.py never imports datetime, so this raises NameError,
which FastAPI answers as 500 Internal Server Error before any registry
write-back happens. -/
def check_server_health (st : RegState) (user_id server_id : String)
    (_hc : Bool × Option String) :
    RegState × HttpResp (Bool × Option String) :=
  match get_server st server_id with
  | none => (st, .err 404 "Server not found")
  | some server =>
    if server.created_by ≠ user_id then
      (st, .err 403 "Access denied")
    else
      match server.status.container_id with
      | none => (st, .ok (false, some "No container found"))
      | some _ => (st, .err 500 "Internal Server Error")

/- ## Dictionary lemmas -/

/-- Lookup of a key other than the assigned one is unchanged by the
replace pass of alist_set. -/
lemma alist_get_map_replace_ne {α : Type} (d : List (String × α)) (k k2 : String)
    (v : α) (h : k2 ≠ k) :
    alist_get (d.map (fun p => if p.1 = k then (k, v) else p)) k2 = alist_get d k2 := by
  induction d with
  | nil => rfl
  | cons p ps ih =>
    have h1 : ¬(k = k2) := fun hh => h hh.symm
    by_cases hp : p.1 = k
    · simp [alist_get, hp, h1, ih]
    · by_cases hp2 : p.1 = k2 <;> simp [alist_get, hp, hp2, h, ih]

/-- Lookup of the assigned key after the replace pass of alist_set, when
the key is present. -/
lemma alist_get_map_replace_eq {α : Type} (d : List (String × α)) (k : String)
    (v : α) (h : (alist_get d k).isSome) :
    alist_get (d.map (fun p => if p.1 = k then (k, v) else p)) k = some v := by
  induction d with
  | nil => simp [alist_get] at h
  | cons p ps ih =>
    by_cases hp : p.1 = k
    · simp [alist_get, hp]
    · have h2 : (alist_get ps k).isSome = true := by
        simpa [alist_get, hp] using h
      simp [alist_get, hp, ih h2]

/-- Lookup distributes over list append. -/
lemma alist_get_append {α : Type} (d e : List (String × α)) (k : String) :
    alist_get (d ++ e) k =
      match alist_get d k with
      | some v => some v
      | none => alist_get e k := by
  induction d with
  | nil => rfl
  | cons p ps ih =>
    by_cases hp : p.1 = k
    · simp [alist_get, hp]
    · simp [alist_get, hp, ih]

/-- Characterisation of lookup after a dict assignment. -/
lemma alist_get_set {α : Type} (d : List (String × α)) (k : String) (v : α)
    (k2 : String) :
    alist_get (alist_set d k v) k2 = if k2 = k then some v else alist_get d k2 := by
  unfold alist_set
  by_cases hs : (alist_get d k).isSome
  · rw [if_pos hs]
    by_cases hk : k2 = k
    · subst hk; rw [if_pos rfl, alist_get_map_replace_eq d k2 v hs]
    · rw [if_neg hk, alist_get_map_replace_ne d k k2 v hk]
  · have hnone : alist_get d k = none := by
      cases hh : alist_get d k <;> simp [hh] at hs ⊢
    rw [if_neg hs, alist_get_append]
    by_cases hk : k2 = k
    · subst hk
      simp [hnone, alist_get]
    · have hk2 : ¬(k = k2) := fun hh2 => hk hh2.symm
      cases hh : alist_get d k2 with
      | some w => simp [hh, hk]
      | none => simp [hh, hk, hk2, alist_get]

/-- Last-binding lookup: the value of the last entry of d with the given
key, modelling which binding wins when a dict is built from d in order. -/
def alist_get_last {α : Type} (d : List (String × α)) (k : String) : Option α :=
  alist_get d.reverse k

/-- First option when present, otherwise the fallback. -/
def option_fallback {α : Type} (o d : Option α) : Option α :=
  match o with
  | some v => some v
  | none => d

/-- Lookup in a merged dict: the unpacked dict wins with its last binding,
otherwise the base dict answers. -/
lemma alist_merge_get {α : Type} (b a : List (String × α)) (k : String) :
    alist_get (alist_merge a b) k =
      option_fallback (alist_get_last b k) (alist_get a k) := by
  induction b generalizing a with
  | nil => rfl
  | cons p rest ih =>
    show alist_get (alist_merge (alist_set a p.1 p.2) rest) k = _
    rw [ih]
    have hlast : alist_get_last (p :: rest) k =
        option_fallback (alist_get_last rest k)
          (if p.1 = k then some p.2 else none) := by
      unfold alist_get_last
      simp only [List.reverse_cons]
      rw [alist_get_append]
      cases alist_get rest.reverse k <;> simp [alist_get, option_fallback]
    rw [hlast]
    cases hr : alist_get_last rest k with
    | some v => rfl
    | none =>
      simp only [option_fallback]
      rw [alist_get_set]
      by_cases hk : k = p.1
      · rw [if_pos hk, if_pos hk.symm]
      · rw [if_neg hk, if_neg (fun hh => hk hh.symm)]

/- ## Claim C1 -/

/-- A configuration whose user environment sets MCP_PORT, colliding with
the fixed system key. -/
def c1_config : MCPServerConfig :=
  { name := "srv"
    description := ""
    transport := .sse
    port := 8765
    environment := [("MCP_PORT", "9999")]
    docker_image := "langconnect-mcp:latest"
    memory_limit := "512m"
    cpu_limit := 1
    restart_policy := "unless-stopped"
    volumes := []
    labels := []
    middleware_config := [] }

/-- C1 counterexample: the claim says the system-supplied MCP_PORT value
takes precedence over the user-supplied config.environment value, but
create_container unpacks config.environment after the fixed keys, so the
user value 9999 survives and the system value str(8765) is lost. -/
theorem c1_counterexample :
    alist_get (build_environment "srv-id" c1_config) "MCP_PORT" = some "9999" ∧
    toString c1_config.port = "8765" ∧
    alist_get (build_environment "srv-id" c1_config) "MCP_PORT"
      ≠ some (toString c1_config.port) := by
  refine ⟨by decide, by decide, by decide⟩

/-- C1 (amended): the environment passed to the runtime is the merge of
the fixed system keys MCP_SERVER_NAME, MCP_SERVER_ID, MCP_TRANSPORT,
MCP_PORT with config.environment, where for every key present in both the
user-supplied config.environment value takes precedence over the
system-supplied one; MCP_MIDDLEWARE_CONFIG is additionally set to the JSON
dump whenever middleware_config is non-empty. -/
theorem c1_environment_merge (server_id : String) (config : MCPServerConfig)
    (k : String) :
    alist_get (build_environment server_id config) k =
      if config.middleware_config.isEmpty = false ∧ k = "MCP_MIDDLEWARE_CONFIG" then
        some (json_dumps config.middleware_config)
      else
        option_fallback (alist_get_last config.environment k)
          (alist_get (fixed_env server_id config) k) := by
  unfold build_environment
  by_cases hmw : config.middleware_config.isEmpty
  · have hcond : ¬(config.middleware_config.isEmpty = false ∧ k = "MCP_MIDDLEWARE_CONFIG") := by
      simp [hmw]
    have hb : ¬((!config.middleware_config.isEmpty) = true) := by simp [hmw]
    rw [if_neg hcond, if_neg hb]
    exact alist_merge_get config.environment (fixed_env server_id config) k
  · have hmw2 : config.middleware_config.isEmpty = false := by
      cases hh : config.middleware_config.isEmpty <;> simp [hh] at hmw ⊢
    have hb : (!config.middleware_config.isEmpty) = true := by simp [hmw2]
    rw [if_pos hb, alist_get_set]
    by_cases hk : k = "MCP_MIDDLEWARE_CONFIG"
    · rw [if_pos hk, if_pos ⟨hmw2, hk⟩]
    · rw [if_neg hk, if_neg (fun hh => hk hh.2)]
      exact alist_merge_get config.environment (fixed_env server_id config) k

/- ## Claim C2 -/

/-- The create request of the C2 failing input. -/
def c2_request : MCPServerCreate :=
  { name := "alpha"
    description := ""
    transport := .sse
    port := some 9000
    environment := []
    docker_image := "img:1"
    memory_limit := "512m"
    cpu_limit := 1
    middleware_config := [] }

/-- C2: when the Supervisor create returns an Error status (here:
ImageNotFound), the create endpoint deletes the freshly registered record
(the registry ends empty again, so create is atomic), and fails with HTTP
500 -- but with the generic detail "Failed to create server", because the
HTTPException(500, status.error_message) raised inside the try block is
caught by the blanket except Exception clause and replaced; the
supervisor message "Docker image not found: img:1" is not surfaced,
contradicting the claim. -/
theorem c2_create_error_behavior :
    create_server [] c2_request "user-1" "srv-1" .imageNotFound 0
      = ([], .err 500 "Failed to create server") ∧
    (create_container "srv-1" c1_config .imageNotFound).2.error_message
      = some "Docker image not found: langconnect-mcp:latest" := by
  refine ⟨by decide, by decide⟩

/- ## Claim C3 -/

/-- Concrete test configuration used by the witness states. -/
def sample_config (name : String) (port : Nat) : MCPServerConfig :=
  { name := name
    description := ""
    transport := .sse
    port := port
    environment := []
    docker_image := "langconnect-mcp:latest"
    memory_limit := "512m"
    cpu_limit := 1
    restart_policy := "unless-stopped"
    volumes := []
    labels := []
    middleware_config := [] }

/-- Concrete test status used by the witness states. -/
def sample_status (server_id : String) (s : ServerStatus)
    (container_id : Option String) : MCPServerStatus :=
  { server_id := server_id
    status := s
    container_id := container_id
    started_at := none
    stopped_at := none
    health_check_passed := false
    last_health_check := none
    error_message := none
    resource_usage := none }

/-- Concrete test server record used by the witness states. -/
def sample_server (id name : String) (port : Nat) (s : ServerStatus)
    (container_id : Option String) (owner : String) : MCPServer :=
  { id := id
    config := sample_config name port
    status := sample_status id s container_id
    created_at := 0
    updated_at := 0
    created_by := owner }

/-- C3: start on a server in state running, starting or stopping returns
400 naming the observed state with no registry or container mutation;
stop on a server in state stopped, starting or error likewise; start is
permitted iff the state is stopped or error and stop is permitted iff the
state is running or unhealthy; the refusal details determine the state
they name. -/
theorem c3_state_gating :
    (∀ (st : RegState) (user_id server_id : String) (server : MCPServer)
       (tok : Option String) (cres : CreateOutcome) (sres : StartOutcome) (now : Int),
       get_server st server_id = some server → server.created_by = user_id →
       (server.status.status = .running ∨ server.status.status = .starting ∨
         server.status.status = .stopping) →
       start_server st user_id server_id tok cres sres now
         = (st, [], .err 400 (start_refusal_detail server.status.status)))
  ∧ (∀ (st : RegState) (user_id server_id : String) (server : MCPServer)
       (sres : StopOutcome) (now : Int),
       get_server st server_id = some server → server.created_by = user_id →
       (server.status.status = .stopped ∨ server.status.status = .starting ∨
         server.status.status = .error) →
       stop_server st user_id server_id sres now
         = (st, [], .err 400 (stop_refusal_detail server.status.status)))
  ∧ (∀ s : MCPServer, s.can_start = true ↔
       (s.status.status = .stopped ∨ s.status.status = .error))
  ∧ (∀ s : MCPServer, s.can_stop = true ↔
       (s.status.status = .running ∨ s.status.status = .unhealthy))
  ∧ (∀ s1 s2 : ServerStatus,
       start_refusal_detail s1 = start_refusal_detail s2 → s1 = s2)
  ∧ (∀ s1 s2 : ServerStatus,
       stop_refusal_detail s1 = stop_refusal_detail s2 → s1 = s2) := by
  refine ⟨?_, ?_, ?_, ?_, by decide, by decide⟩
  · intro st user_id server_id server tok cres sres now hfind howner hs
    have hcs : server.can_start = false := by
      rcases hs with h | h | h <;> simp [MCPServer.can_start, h]
    simp only [start_server, hfind]
    rw [if_neg (by simp [howner]), if_pos (by simp [hcs])]
  · intro st user_id server_id server sres now hfind howner hs
    have hcs : server.can_stop = false := by
      rcases hs with h | h | h <;> simp [MCPServer.can_stop, h]
    simp only [stop_server, hfind]
    rw [if_neg (by simp [howner]), if_pos (by simp [hcs])]
  · intro s
    cases h : s.status.status <;> simp [MCPServer.can_start, h]
  · intro s
    cases h : s.status.status <;> simp [MCPServer.can_stop, h]

/-- Witness for C3 at concrete inputs: a running server refuses start and
a stopped server refuses stop, each as a 400 with the state named and the
registry state returned unchanged. -/
theorem c3_state_gating_witness :
    get_server [sample_server "s1" "alpha" 8765 .running (some "c1") "u1"] "s1"
        = some (sample_server "s1" "alpha" 8765 .running (some "c1") "u1") ∧
    (sample_server "s1" "alpha" 8765 .running (some "c1") "u1").created_by = "u1" ∧
    (sample_server "s1" "alpha" 8765 .running (some "c1") "u1").status.status = .running ∧
    start_server [sample_server "s1" "alpha" 8765 .running (some "c1") "u1"]
        "u1" "s1" none (.created "c2") (.started "s1") 0
      = ([sample_server "s1" "alpha" 8765 .running (some "c1") "u1"], [],
         .err 400 (start_refusal_detail
           (sample_server "s1" "alpha" 8765 .running (some "c1") "u1").status.status)) ∧
    get_server [sample_server "s2" "beta" 8766 .stopped none "u1"] "s2"
        = some (sample_server "s2" "beta" 8766 .stopped none "u1") ∧
    (sample_server "s2" "beta" 8766 .stopped none "u1").created_by = "u1" ∧
    (sample_server "s2" "beta" 8766 .stopped none "u1").status.status = .stopped ∧
    stop_server [sample_server "s2" "beta" 8766 .stopped none "u1"]
        "u1" "s2" (.stopped "s2") 0
      = ([sample_server "s2" "beta" 8766 .stopped none "u1"], [],
         .err 400 (stop_refusal_detail
           (sample_server "s2" "beta" 8766 .stopped none "u1").status.status)) :=
  ⟨by decide, by decide, by decide,
   c3_state_gating.1 _ _ _ _ _ _ _ _ (by decide) (by decide) (Or.inl (by decide)),
   by decide, by decide, by decide,
   c3_state_gating.2.1 _ _ _ _ _ _ (by decide) (by decide) (Or.inl (by decide))⟩

/- ## Claim C4 -/

/-- C4 counterexample: the claim says a name containing uppercase letters
is rejected by validation, but validate_name accepts MyServer and returns
it lowercased. -/
theorem c4_counterexample :
    validate_name "MyServer" = .ok "myserver" := by decide

/-- Shared fact: register_server answers NameConflict when the validated
submitted name equals the name of a record already in the registry and
the other field constraints hold. -/
lemma register_server_name_conflict (st : RegState) (req : MCPServerCreate)
    (user_id server_id : String) (now : Int) (p : Nat) (r : MCPServer)
    (hp : req.port = some p) (hp1 : 1024 ≤ p) (hp2 : p ≤ 65535)
    (hc1 : 0 < req.cpu_limit) (hc2 : req.cpu_limit ≤ 4)
    (hr : r ∈ st) (hv : validate_name req.name = .ok r.config.name) :
    register_server st req user_id server_id now
      = .error (.nameConflict ("Server name " ++ req.name ++ " already exists")) := by
  simp only [register_server, hp, hv]
  rw [if_neg (by simp [hp1, hp2])]
  rw [if_neg (by simp [hc1, hc2])]
  rw [if_pos]
  exact List.any_eq_true.mpr ⟨r, hr, by simp⟩

/-- C4 (amended): register fails with a NameConflict error, surfaced as
400 by the create endpoint, when the submitted name validates to the name
of an existing record (in particular when it equals a stored name); and
validation accepts exactly the names that contain at least one
alphanumeric character and no character outside alphanumerics, dash and
underscore -- case-insensitively, with accepted names normalised to
lowercase -- and rejects all others with a Validation error. -/
theorem c4_name_rules :
    (∀ v : String,
       if (v.data.any Char.isAlphanum &&
           v.data.all (fun c => c.isAlphanum || c == '-' || c == '_')) then
         validate_name v = .ok (py_lower v)
       else
         validate_name v = .error "Server name must be alphanumeric with - or _")
  ∧ (∀ (st : RegState) (req : MCPServerCreate) (user_id server_id : String)
       (now : Int) (p : Nat) (r : MCPServer),
       req.port = some p → 1024 ≤ p → p ≤ 65535 →
       0 < req.cpu_limit → req.cpu_limit ≤ 4 →
       r ∈ st → validate_name req.name = .ok r.config.name →
       register_server st req user_id server_id now
         = .error (.nameConflict ("Server name " ++ req.name ++ " already exists")))
  ∧ (∀ (st : RegState) (req : MCPServerCreate) (user_id server_id : String)
       (dres : CreateOutcome) (now : Int) (p : Nat) (r : MCPServer),
       req.port = some p → 1024 ≤ p → p ≤ 65535 →
       0 < req.cpu_limit → req.cpu_limit ≤ 4 →
       r ∈ st → validate_name req.name = .ok r.config.name →
       create_server st req user_id server_id dres now
         = (st, .err 400 ("Server name " ++ req.name ++ " already exists"))) := by
  refine ⟨?_, ?_, ?_⟩
  · intro v
    by_cases h : (v.data.any Char.isAlphanum &&
        v.data.all (fun c => c.isAlphanum || c == '-' || c == '_')) = true
    · rw [if_pos h]
      obtain ⟨hA, hB⟩ := (Bool.and_eq_true _ _).mp h
      obtain ⟨c, hcmem, hcal⟩ := List.any_eq_true.mp hA
      have hdash : (c == '-') = false := by
        by_cases hcc : c = '-'
        · subst hcc; exact absurd hcal (by decide)
        · simp [hcc]
      have hund : (c == '_') = false := by
        by_cases hcc : c = '_'
        · subst hcc; exact absurd hcal (by decide)
        · simp [hcc]
      have hmemf : c ∈ v.data.filter (fun c => !(c == '-') && !(c == '_')) := by
        rw [List.mem_filter]
        exact ⟨hcmem, by simp [hdash, hund]⟩
      have hne : v.data.isEmpty = false := by
        cases hdata : v.data with
        | nil => rw [hdata] at hcmem; cases hcmem
        | cons a as => rfl
      have hfe : (v.data.filter (fun c => !(c == '-') && !(c == '_'))).isEmpty = false := by
        cases hff : v.data.filter (fun c => !(c == '-') && !(c == '_')) with
        | nil => rw [hff] at hmemf; cases hmemf
        | cons a as => rfl
      have hall : (v.data.filter (fun c => !(c == '-') && !(c == '_'))).all
          Char.isAlphanum = true := by
        rw [List.all_eq_true]
        intro x hx
        obtain ⟨hxl, hxg⟩ := List.mem_filter.mp hx
        have hBx := List.all_eq_true.mp hB x hxl
        obtain ⟨hx1, hx2⟩ := (Bool.and_eq_true _ _).mp hxg
        rw [Bool.not_eq_true'] at hx1 hx2
        rcases (Bool.or_eq_true _ _).mp hBx with h1 | h2
        · rcases (Bool.or_eq_true _ _).mp h1 with h3 | h4
          · exact h3
          · rw [hx1] at h4; cases h4
        · rw [hx2] at h2; cases h2
      unfold validate_name
      rw [if_neg]
      simp [hne, py_isalnum, hfe, hall]
    · rw [if_neg h]
      have h2 : (v.data.any Char.isAlphanum &&
          v.data.all (fun c => c.isAlphanum || c == '-' || c == '_')) = false := by
        cases hh : (v.data.any Char.isAlphanum &&
            v.data.all (fun c => c.isAlphanum || c == '-' || c == '_')) <;>
          simp [hh] at h ⊢
      have hpy : py_isalnum (v.data.filter (fun c => !(c == '-') && !(c == '_'))) = false := by
        rcases Bool.and_eq_false_iff.mp h2 with hA | hB
        · have hAall : ∀ x ∈ v.data, Char.isAlphanum x = false := by
            intro x hx
            cases hxx : Char.isAlphanum x
            · rfl
            · exact absurd (List.any_eq_true.mpr ⟨x, hx, hxx⟩) (by simp [hA])
          cases hf : v.data.filter (fun c => !(c == '-') && !(c == '_')) with
          | nil => simp [py_isalnum, hf]
          | cons x xs =>
            have hxmem : x ∈ v.data.filter (fun c => !(c == '-') && !(c == '_')) := by
              rw [hf]; exact List.mem_cons_self x xs
            have hxl : x ∈ v.data := (List.mem_filter.mp hxmem).1
            have hxa := hAall x hxl
            have : (x :: xs).all Char.isAlphanum = false := by
              simp [List.all_cons, hxa]
            simp [py_isalnum, hf, this]
        · have hex : ∃ x ∈ v.data,
              (Char.isAlphanum x || x == '-' || x == '_') = false := by
            by_contra hno
            push_neg at hno
            have : v.data.all (fun c => c.isAlphanum || c == '-' || c == '_') = true := by
              rw [List.all_eq_true]
              intro x hx
              exact eq_true_of_ne_false (hno x hx)
            rw [this] at hB; cases hB
          obtain ⟨x, hxl, hxf⟩ := hex
          obtain ⟨hxf1, hund⟩ := Bool.or_eq_false_iff.mp hxf
          obtain ⟨hxa, hdash⟩ := Bool.or_eq_false_iff.mp hxf1
          have hxmem : x ∈ v.data.filter (fun c => !(c == '-') && !(c == '_')) := by
            rw [List.mem_filter]
            exact ⟨hxl, by simp [hdash, hund]⟩
          have : (v.data.filter (fun c => !(c == '-') && !(c == '_'))).all
              Char.isAlphanum = false := by
            cases hcc : (v.data.filter (fun c => !(c == '-') && !(c == '_'))).all
                Char.isAlphanum
            · rfl
            · exact absurd (List.all_eq_true.mp hcc x hxmem) (by simp [hxa])
          simp [py_isalnum, this]
      unfold validate_name
      rw [if_pos]
      simp [hpy]
  · intro st req user_id server_id now p r hp hp1 hp2 hc1 hc2 hr hv
    exact register_server_name_conflict st req user_id server_id now p r
      hp hp1 hp2 hc1 hc2 hr hv
  · intro st req user_id server_id dres now p r hp hp1 hp2 hc1 hc2 hr hv
    have hreg := register_server_name_conflict st req user_id server_id now p r
      hp hp1 hp2 hc1 hc2 hr hv
    simp only [create_server, hreg]

/-- Witness for C4 at concrete inputs: submitting Alpha against a registry
holding alpha yields NameConflict from register and a 400 from create. -/
theorem c4_name_rules_witness :
    validate_name "Alpha" = .ok (sample_server "s1" "alpha" 8765 .stopped none "u1").config.name ∧
    register_server [sample_server "s1" "alpha" 8765 .stopped none "u1"]
        { name := "Alpha", description := "", transport := .sse, port := some 9000,
          environment := [], docker_image := "img:1", memory_limit := "512m",
          cpu_limit := 1, middleware_config := [] } "u1" "s9" 0
      = .error (.nameConflict "Server name Alpha already exists") ∧
    create_server [sample_server "s1" "alpha" 8765 .stopped none "u1"]
        { name := "Alpha", description := "", transport := .sse, port := some 9000,
          environment := [], docker_image := "img:1", memory_limit := "512m",
          cpu_limit := 1, middleware_config := [] } "u1" "s9" (.created "c1") 0
      = ([sample_server "s1" "alpha" 8765 .stopped none "u1"],
         .err 400 "Server name Alpha already exists") :=
  ⟨by decide,
   c4_name_rules.2.1 _ _ _ _ _ 9000 _ rfl (by decide) (by decide) (by decide)
     (by decide) (List.mem_singleton.mpr rfl) (by decide),
   c4_name_rules.2.2 _ _ _ _ _ _ 9000 _ rfl (by decide) (by decide) (by decide)
     (by decide) (List.mem_singleton.mpr rfl) (by decide)⟩

/- ## Claim C5 -/

/-- The fuelled port-scan loop returns the smallest free candidate at or
above the starting port, provided some free candidate lies within fuel
range. -/
lemma next_port_loop_spec :
    ∀ (fuel : Nat) (used : List Nat) (port : Nat),
      (∃ i, i < fuel ∧ used.contains (port + i) = false) →
      port ≤ next_port_loop fuel used port ∧
      used.contains (next_port_loop fuel used port) = false ∧
      ∀ q, port ≤ q → q < next_port_loop fuel used port →
        used.contains q = true := by
  intro fuel
  induction fuel with
  | zero =>
    intro used port h
    obtain ⟨i, hi, _⟩ := h
    exact absurd hi (Nat.not_lt_zero i)
  | succ f ih =>
    intro used port h
    obtain ⟨i, hi, hfree⟩ := h
    by_cases hc : used.contains port = true
    · have hi0 : i ≠ 0 := by
        intro h0
        rw [h0, Nat.add_zero] at hfree
        rw [hfree] at hc
        cases hc
      obtain ⟨j, rfl⟩ : ∃ j, i = j + 1 := ⟨i - 1, by omega⟩
      have hfree2 : used.contains (port + 1 + j) = false := by
        have harr : port + (j + 1) = port + 1 + j := by omega
        rw [← harr]
        exact hfree
      have hrec := ih used (port + 1) ⟨j, by omega, hfree2⟩
      have hloop : next_port_loop (f + 1) used port = next_port_loop f used (port + 1) := by
        simp only [next_port_loop]
        rw [if_pos hc]
      rw [hloop]
      refine ⟨le_trans (Nat.le_succ port) hrec.1, hrec.2.1, ?_⟩
      intro q hq1 hq2
      by_cases hqp : q = port
      · rw [hqp]; exact hc
      · exact hrec.2.2 q (by omega) hq2
    · have hcf : used.contains port = false := by
        cases hcc : used.contains port
        · rfl
        · exact absurd hcc hc
      have hloop : next_port_loop (f + 1) used port = port := by
        simp only [next_port_loop]
        rw [if_neg hc]
      rw [hloop]
      exact ⟨le_refl port, hcf, fun q h1 h2 => absurd (lt_of_le_of_lt h1 h2) (lt_irrefl port)⟩

/-- The fold base is below the fold of max. -/
lemma le_foldr_max (l : List Nat) (b : Nat) : b ≤ l.foldr Nat.max b := by
  induction l with
  | nil => exact le_refl b
  | cons a as ih =>
    simp only [List.foldr_cons]
    exact le_trans ih (Nat.le_max_right a (as.foldr Nat.max b))

/-- Every member is below the fold of max. -/
lemma mem_le_foldr_max (l : List Nat) (b x : Nat) (h : x ∈ l) :
    x ≤ l.foldr Nat.max b := by
  induction l with
  | nil => cases h
  | cons a as ih =>
    simp only [List.foldr_cons]
    rcases List.mem_cons.mp h with rfl | h2
    · exact Nat.le_max_left x (as.foldr Nat.max b)
    · exact le_trans (ih h2) (Nat.le_max_right a (as.foldr Nat.max b))

/-- get_next_available_port returns the smallest port at or above
start_port not contained in the used list. -/
lemma get_next_available_port_spec (used : List Nat) (start_port : Nat) :
    start_port ≤ get_next_available_port used start_port ∧
    used.contains (get_next_available_port used start_port) = false ∧
    ∀ q, start_port ≤ q → q < get_next_available_port used start_port →
      used.contains q = true := by
  unfold get_next_available_port
  apply next_port_loop_spec
  have hM : start_port ≤ used.foldr Nat.max start_port := le_foldr_max used start_port
  refine ⟨used.foldr Nat.max start_port + 1 - start_port, by omega, ?_⟩
  have h1 : start_port + (used.foldr Nat.max start_port + 1 - start_port)
      = used.foldr Nat.max start_port + 1 := by omega
  rw [h1]
  by_cases hc : used.contains (used.foldr Nat.max start_port + 1) = true
  · have hmem : used.foldr Nat.max start_port + 1 ∈ used := List.elem_iff.mp hc
    have hle := mem_le_foldr_max used start_port _ hmem
    omega
  · cases hcc : used.contains (used.foldr Nat.max start_port + 1)
    · rfl
    · exact absurd hcc hc

/-- C5: with the port omitted, register assigns the smallest port at or
above 8765 not among the stored config.port values; in particular, with
one record at 8765 the assigned port is 8766. -/
theorem c5_port_allocation :
    (∀ st : RegState,
       8765 ≤ get_next_available_port (used_ports st) 8765 ∧
       (∀ r ∈ st, r.config.port ≠ get_next_available_port (used_ports st) 8765) ∧
       (∀ q, 8765 ≤ q → q < get_next_available_port (used_ports st) 8765 →
          ∃ r ∈ st, r.config.port = q))
  ∧ (∀ (st : RegState) (req : MCPServerCreate) (user_id server_id : String)
       (now : Int) (st2 : RegState) (server : MCPServer),
       req.port = none →
       register_server st req user_id server_id now = .ok (st2, server) →
       server.config.port = get_next_available_port (used_ports st) 8765)
  ∧ get_next_available_port [8765] 8765 = 8766 := by
  refine ⟨?_, ?_, by decide⟩
  · intro st
    obtain ⟨h1, h2, h3⟩ := get_next_available_port_spec (used_ports st) 8765
    refine ⟨h1, ?_, ?_⟩
    · intro r hr hcontra
      have hmem : r.config.port ∈ used_ports st := by
        unfold used_ports
        rw [List.mem_dedup]
        exact List.mem_map.mpr ⟨r, hr, rfl⟩
      rw [hcontra] at hmem
      have hct : (used_ports st).contains
          (get_next_available_port (used_ports st) 8765) = true :=
        List.elem_iff.mpr hmem
      rw [h2] at hct
      cases hct
    · intro q hq1 hq2
      have hc := h3 q hq1 hq2
      have hmem : q ∈ used_ports st := List.elem_iff.mp hc
      unfold used_ports at hmem
      rw [List.mem_dedup] at hmem
      obtain ⟨r, hr, hrq⟩ := List.mem_map.mp hmem
      exact ⟨r, hr, hrq⟩
  · intro st req user_id server_id now st2 server hp hreg
    simp only [register_server, hp] at hreg
    cases hval : validate_name req.name with
    | error msg =>
      simp only [hval] at hreg
      exact absurd hreg (by simp)
    | ok vname =>
      simp only [hval] at hreg
      split at hreg
      · exact absurd hreg (by simp)
      · split at hreg
        · exact absurd hreg (by simp)
        · split at hreg
          · exact absurd hreg (by simp)
          · obtain ⟨hst, hsrv⟩ := Prod.mk.inj (Except.ok.inj hreg)
            rw [← hsrv]

/-- Registry state with one server occupying port 8765. -/
def c5_state : RegState := [sample_server "s1" "alpha" 8765 .stopped none "u1"]

/-- A create request without a port. -/
def c5_request : MCPServerCreate :=
  { name := "beta"
    description := ""
    transport := .sse
    port := none
    environment := []
    docker_image := "langconnect-mcp:latest"
    memory_limit := "512m"
    cpu_limit := 1
    middleware_config := [] }

/-- The record register_server produces for the C5 witness input. -/
def c5_result : MCPServer := sample_server "s2" "beta" 8766 .stopped none "u1"

/-- Witness for C5: with one record at port 8765 and the port omitted,
register assigns 8766. -/
theorem c5_port_allocation_witness :
    register_server c5_state c5_request "u1" "s2" 0
      = .ok (c5_state ++ [c5_result], c5_result) ∧
    c5_result.config.port = get_next_available_port (used_ports c5_state) 8765 ∧
    get_next_available_port (used_ports c5_state) 8765 = 8766 :=
  ⟨by decide,
   c5_port_allocation.2.1 c5_state c5_request "u1" "s2" 0 (c5_state ++ [c5_result])
     c5_result rfl (by decide),
   by decide⟩

/- ## Claim C6 -/

/-- C6: for every owned, existing server with a non-null container_id the
health endpoint does not return the claimed 200 body and performs no
registry write-back: evaluation of datetime.utcnow() at
mcp_controller.py line 437 raises NameError (the module never imports
datetime), which surfaces as 500 Internal Server Error, whatever the
Supervisor health verdict was. -/
theorem c6_health_endpoint_name_error :
    ∀ (st : RegState) (user_id server_id : String) (server : MCPServer)
      (hc : Bool × Option String),
      get_server st server_id = some server →
      server.created_by = user_id →
      server.status.container_id.isSome = true →
      check_server_health st user_id server_id hc
        = (st, .err 500 "Internal Server Error") := by
  intro st user_id server_id server hc hfind howner hcont
  obtain ⟨cid, hcid⟩ := Option.isSome_iff_exists.mp hcont
  simp only [check_server_health, hfind]
  rw [if_neg (by simp [howner]), hcid]

/-- Witness for C6: a concrete owned running server with a container,
whose Supervisor health verdict is healthy, still gets the 500 from the
missing datetime import, with the registry unchanged. -/
theorem c6_health_endpoint_name_error_witness :
    get_server [sample_server "s1" "alpha" 8765 .running (some "c1") "u1"] "s1"
      = some (sample_server "s1" "alpha" 8765 .running (some "c1") "u1") ∧
    health_check (some { runtime_status := "running", health := none }) = (true, none) ∧
    check_server_health [sample_server "s1" "alpha" 8765 .running (some "c1") "u1"]
        "u1" "s1" (health_check (some { runtime_status := "running", health := none }))
      = ([sample_server "s1" "alpha" 8765 .running (some "c1") "u1"],
         .err 500 "Internal Server Error") :=
  ⟨by decide, by decide,
   c6_health_endpoint_name_error
     [sample_server "s1" "alpha" 8765 .running (some "c1") "u1"] "u1" "s1"
     (sample_server "s1" "alpha" 8765 .running (some "c1") "u1")
     (health_check (some { runtime_status := "running", health := none }))
     (by decide) (by decide) (by decide)⟩

/- ## Claim C7 -/

/-- C7: get_token returns null when no token is cached; when the cached
expiry minus the 5-minute buffer is at or before now it performs the
inline refresh and returns the refreshed access token, or null when the
refresh fails -- in particular a raised network exception is absorbed to
null rather than propagated; otherwise it returns the cached access
token unchanged. -/
theorem c7_get_token :
    (∀ (cache : TokenCache) (now : Int) (user_id : String) (net : RefreshOutcome),
       alist_get cache user_id = none →
       get_token cache now user_id net = (none, cache))
  ∧ (∀ (cache : TokenCache) (now : Int) (user_id : String) (net : RefreshOutcome)
       (token : AuthToken),
       alist_get cache user_id = some token →
       token.expires_at - 300 ≤ now →
       (get_token cache now user_id net).1
         = (refresh_token cache user_id net).1.map (fun t => t.access_token))
  ∧ (∀ (cache : TokenCache) (now : Int) (user_id : String) (net : RefreshOutcome)
       (token : AuthToken),
       alist_get cache user_id = some token →
       now < token.expires_at - 300 →
       get_token cache now user_id net = (some token.access_token, cache))
  ∧ (∀ (cache : TokenCache) (now : Int) (user_id : String) (msg : String)
       (token : AuthToken),
       alist_get cache user_id = some token →
       token.expires_at - 300 ≤ now →
       (get_token cache now user_id (.exn msg)).1 = none) := by
  refine ⟨?_, ?_, ?_, ?_⟩
  · intro cache now user_id net hnone
    simp only [get_token, hnone]
  · intro cache now user_id net token htok hexp
    simp only [get_token, htok]
    rw [if_pos hexp]
    cases hr : refresh_token cache user_id net with
    | mk fst snd =>
      cases fst <;> simp
  · intro cache now user_id net token htok hexp
    simp only [get_token, htok]
    rw [if_neg (by omega)]
  · intro cache now user_id msg token htok hexp
    simp only [get_token, htok]
    rw [if_pos hexp]
    have hr : (refresh_token cache user_id (.exn msg)).1 = none := by
      simp only [refresh_token, htok]
      cases token.refresh_token <;> simp
    cases hrr : refresh_token cache user_id (.exn msg) with
    | mk fst snd =>
      rw [hrr] at hr
      simp only at hr
      rw [hr]

/-- A cached token for the C7 witness. -/
def c7_token : AuthToken :=
  { access_token := "tokA"
    refresh_token := some "refA"
    expires_at := 1000
    user_id := "u1"
    user_email := "a@b.c" }

/-- A decoded refresh response for the C7 witness. -/
def c7_new : RefreshResponse :=
  { access_token := "tokB"
    refresh_token := none
    exp := 2000
    sub := "u1" }

/-- Witness for C7 at concrete inputs: empty cache gives null; at
now = 800 (inside the 300 s buffer before expiry 1000) get refreshes
inline; at now = 0 it returns the cached token; a raised exception
during the inline refresh is absorbed to null. -/
theorem c7_get_token_witness :
    get_token [] 0 "u1" .httpFail = (none, []) ∧
    (get_token [("u1", c7_token)] 800 "u1" (.ok c7_new)).1
      = (refresh_token [("u1", c7_token)] "u1" (.ok c7_new)).1.map
          (fun t => t.access_token) ∧
    get_token [("u1", c7_token)] 0 "u1" .httpFail
      = (some "tokA", [("u1", c7_token)]) ∧
    (get_token [("u1", c7_token)] 800 "u1" (.exn "boom")).1 = none :=
  ⟨c7_get_token.1 [] 0 "u1" .httpFail rfl,
   c7_get_token.2.1 [("u1", c7_token)] 800 "u1" (.ok c7_new) c7_token
     (by decide) (by decide),
   c7_get_token.2.2.1 [("u1", c7_token)] 0 "u1" .httpFail c7_token
     (by decide) (by decide),
   c7_get_token.2.2.2 [("u1", c7_token)] 800 "u1" "boom" c7_token
     (by decide) (by decide)⟩

/- ## Claim C8 -/

/-- Rounding zero gives zero. -/
lemma round2_zero : round2 0 = 0 := by
  simp only [round2]
  norm_num

/-- C8: when the system delta is positive, the reported CPU percent is
cpu delta over system delta times 100, rounded to two decimals; when the
system delta is at most 0, the CPU percent is 0; memory percent is usage
over limit times 100, rounded.  The concrete instances of the claim:
cpu_delta 500 with system_delta 2000 gives 25.00, and system_delta 0
gives 0. -/
theorem c8_resource_stats :
    (∀ s : StatsSample, s.memory_limit ≠ 0 → 0 < s.system_cpu - s.presystem_cpu →
       get_container_stats s = some
         { cpu_percent := round2 (((s.cpu_total - s.precpu_total : Int) : ℚ)
             / ((s.system_cpu - s.presystem_cpu : Int) : ℚ) * 100)
           memory_usage_mb := round2 ((s.memory_usage : ℚ) / 1024 / 1024)
           memory_limit_mb := round2 ((s.memory_limit : ℚ) / 1024 / 1024)
           memory_percent := round2 ((s.memory_usage : ℚ) / (s.memory_limit : ℚ) * 100) })
  ∧ (∀ s : StatsSample, s.memory_limit ≠ 0 → s.system_cpu - s.presystem_cpu ≤ 0 →
       get_container_stats s = some
         { cpu_percent := 0
           memory_usage_mb := round2 ((s.memory_usage : ℚ) / 1024 / 1024)
           memory_limit_mb := round2 ((s.memory_limit : ℚ) / 1024 / 1024)
           memory_percent := round2 ((s.memory_usage : ℚ) / (s.memory_limit : ℚ) * 100) })
  ∧ (get_container_stats ⟨500, 0, 2000, 0, 100, 200⟩).map (fun r => r.cpu_percent)
      = some 25
  ∧ (get_container_stats ⟨500, 0, 0, 0, 100, 200⟩).map (fun r => r.cpu_percent)
      = some 0 := by
  refine ⟨?_, ?_, ?_, ?_⟩
  case refine_3 =>
    norm_num [get_container_stats, round2]
  case refine_4 =>
    norm_num [get_container_stats, round2]
  · intro s hml hsd
    have hsd2 : ((s.system_cpu - s.presystem_cpu : Int) : ℚ) > 0 := by
      exact_mod_cast hsd
    simp only [get_container_stats]
    rw [if_neg hml, if_pos hsd2]
  · intro s hml hsd
    have hsd2 : ¬(((s.system_cpu - s.presystem_cpu : Int) : ℚ) > 0) := by
      push_neg
      exact_mod_cast hsd
    simp only [get_container_stats]
    rw [if_neg hml, if_neg hsd2, round2_zero]

/-- Witness for C8: the general clauses applied at the two concrete
samples of the claim. -/
theorem c8_resource_stats_witness :
    get_container_stats ⟨500, 0, 2000, 0, 100, 200⟩ = some
      { cpu_percent := round2 ((((500 : Int) - 0 : Int) : ℚ)
          / (((2000 : Int) - 0 : Int) : ℚ) * 100)
        memory_usage_mb := round2 (((100 : Int) : ℚ) / 1024 / 1024)
        memory_limit_mb := round2 (((200 : Int) : ℚ) / 1024 / 1024)
        memory_percent := round2 (((100 : Int) : ℚ) / ((200 : Int) : ℚ) * 100) } ∧
    get_container_stats ⟨500, 0, 0, 0, 100, 200⟩ = some
      { cpu_percent := 0
        memory_usage_mb := round2 (((100 : Int) : ℚ) / 1024 / 1024)
        memory_limit_mb := round2 (((200 : Int) : ℚ) / 1024 / 1024)
        memory_percent := round2 (((100 : Int) : ℚ) / ((200 : Int) : ℚ) * 100) } :=
  ⟨c8_resource_stats.1 ⟨500, 0, 2000, 0, 100, 200⟩ (by decide) (by decide),
   c8_resource_stats.2.1 ⟨500, 0, 0, 0, 100, 200⟩ (by decide) (by decide)⟩

/- ## Claim C9 -/

/-- C9: restart checks ownership and the presence of a container_id but
imposes no lifecycle-state precondition: for every owned server with a
container_id, whatever its status, the restart endpoint calls the
Supervisor restart and answers 200; ownership mismatch gives 403 and a
missing container gives 400. -/
theorem c9_restart_ungated :
    (∀ (st : RegState) (user_id server_id : String) (server : MCPServer)
       (cid : String) (tok : Option String) (rres : RestartOutcome) (now : Int),
       get_server st server_id = some server →
       server.created_by = user_id →
       server.status.container_id = some cid →
       (restart_server st user_id server_id tok rres now).2.1 = [.restartCall cid]
       ∧ ∃ body, (restart_server st user_id server_id tok rres now).2.2 = .ok body)
  ∧ (∀ (st : RegState) (user_id server_id : String) (server : MCPServer)
       (tok : Option String) (rres : RestartOutcome) (now : Int),
       get_server st server_id = some server →
       server.created_by ≠ user_id →
       restart_server st user_id server_id tok rres now
         = (st, [], .err 403 "Access denied"))
  ∧ (∀ (st : RegState) (user_id server_id : String) (server : MCPServer)
       (tok : Option String) (rres : RestartOutcome) (now : Int),
       get_server st server_id = some server →
       server.created_by = user_id →
       server.status.container_id = none →
       restart_server st user_id server_id tok rres now
         = (st, [], .err 400 "No container found for server")) := by
  refine ⟨?_, ?_, ?_⟩
  · intro st user_id server_id server cid tok rres now hfind howner hcid
    simp only [restart_server, hfind]
    rw [if_neg (by simp [howner])]
    simp only [hcid]
    exact ⟨by trivial, ⟨_, rfl⟩⟩
  · intro st user_id server_id server tok rres now hfind howner
    simp only [restart_server, hfind]
    rw [if_pos howner]
  · intro st user_id server_id server tok rres now hfind howner hcid
    simp only [restart_server, hfind]
    rw [if_neg (by simp [howner])]
    simp only [hcid]

/-- Witness for C9: a server in the transient starting state, which both
start and stop would refuse, is restarted anyway: the Supervisor restart
call happens and the response is a 200 action response. -/
theorem c9_restart_ungated_witness :
    get_server [sample_server "s1" "alpha" 8765 .starting (some "c1") "u1"] "s1"
      = some (sample_server "s1" "alpha" 8765 .starting (some "c1") "u1") ∧
    (sample_server "s1" "alpha" 8765 .starting (some "c1") "u1").status.status
      = .starting ∧
    ((restart_server [sample_server "s1" "alpha" 8765 .starting (some "c1") "u1"]
        "u1" "s1" none (.running "s1") 7).2.1 = [.restartCall "c1"]
     ∧ ∃ body, (restart_server
        [sample_server "s1" "alpha" 8765 .starting (some "c1") "u1"]
        "u1" "s1" none (.running "s1") 7).2.2 = .ok body) :=
  ⟨by decide, by decide,
   c9_restart_ungated.1 [sample_server "s1" "alpha" 8765 .starting (some "c1") "u1"]
     "u1" "s1" (sample_server "s1" "alpha" 8765 .starting (some "c1") "u1")
     "c1" none (.running "s1") 7 (by decide) (by decide) (by decide)⟩

/- ## Claim C10 -/

/-- Row lookup after an id-preserving conditional map: the looked-up row
is the transformed one. -/
lemma get_server_map_update (st : RegState) (server_id : String)
    (g : MCPServer → MCPServer) (hg : ∀ r, (g r).id = r.id) (r : MCPServer)
    (h : get_server st server_id = some r) :
    get_server (st.map (fun r2 => if r2.id == server_id then g r2 else r2)) server_id
      = some (g r) := by
  unfold get_server at h ⊢
  rw [List.find?_map]
  have hfun : ((fun x : MCPServer => x.id == server_id)
        ∘ (fun r2 => if r2.id == server_id then g r2 else r2))
      = fun r2 : MCPServer => r2.id == server_id := by
    funext r2
    by_cases hr2 : (r2.id == server_id) = true
    · simp [Function.comp, hr2, hg]
    · simp [Function.comp, hr2]
  rw [hfun, h]
  have hpr : (r.id == server_id) = true := by
    have hp2 := List.find?_some h
    simpa using hp2
  have hid : r.id = server_id := by simpa using hpr
  simp [hid]

/-- A patch that sets exactly the description. -/
def c10_patch : MCPServerUpdate :=
  { description := some "x"
    environment := none
    memory_limit := none
    cpu_limit := none
    middleware_config := none
    restart_policy := none }

/-- C10 counterexample: the claim says only the six patchable config
fields can change under update_config, but the database trigger bumps the
updated_at column on every UPDATE: updating the description at time 1 of
a record last updated at time 0 changes its updated_at from 0 to 1. -/
theorem c10_counterexample :
    (update_server [sample_server "s1" "alpha" 8765 .stopped none "u1"]
        "s1" c10_patch 1).map (fun p => p.2.updated_at) = some 1 ∧
    (sample_server "s1" "alpha" 8765 .stopped none "u1").updated_at = 0 := by
  refine ⟨by decide, by decide⟩

/-- C10 (amended): update_config skips every patch field whose value is
null, so no config field can be cleared through update; it leaves the
record's status, id, name, port, created_by (and created_at, transport,
docker_image, volumes, labels) unchanged; only the six patchable config
fields and the updated_at timestamp, which the database trigger bumps on
every update, can change; the returned record carries exactly the patched
config. -/
theorem c10_update_frame :
    ∀ (st : RegState) (server_id : String) (u : MCPServerUpdate) (now : Int)
      (st2 : RegState) (out r : MCPServer),
      update_server st server_id u now = some (st2, out) →
      get_server st server_id = some r →
      out.id = r.id ∧ out.created_by = r.created_by ∧ out.created_at = r.created_at ∧
      out.status = r.status ∧
      out.config.name = r.config.name ∧ out.config.port = r.config.port ∧
      out.config.transport = r.config.transport ∧
      out.config.docker_image = r.config.docker_image ∧
      out.config.volumes = r.config.volumes ∧ out.config.labels = r.config.labels ∧
      out.updated_at = now ∧ out.config = apply_update r.config u ∧
      (u.description = none → out.config.description = r.config.description) ∧
      (u.environment = none → out.config.environment = r.config.environment) ∧
      (u.memory_limit = none → out.config.memory_limit = r.config.memory_limit) ∧
      (u.cpu_limit = none → out.config.cpu_limit = r.config.cpu_limit) ∧
      (u.middleware_config = none →
        out.config.middleware_config = r.config.middleware_config) ∧
      (u.restart_policy = none → out.config.restart_policy = r.config.restart_policy) := by
  intro st server_id u now st2 out r hupd hfind
  simp only [update_server, hfind] at hupd
  have hmap := get_server_map_update st server_id
    (fun x => { x with config := apply_update r.config u, updated_at := now })
    (fun r2 => rfl) r hfind
  rw [hmap] at hupd
  simp only [Option.some.injEq, Prod.mk.injEq] at hupd
  obtain ⟨hst, hout⟩ := hupd
  rw [← hout]
  refine ⟨rfl, rfl, rfl, rfl, rfl, rfl, rfl, rfl, rfl, rfl, rfl, rfl, ?_, ?_, ?_, ?_, ?_, ?_⟩
  · intro h; simp [apply_update, h]
  · intro h; simp [apply_update, h]
  · intro h; simp [apply_update, h]
  · intro h; simp [apply_update, h]
  · intro h; simp [apply_update, h]
  · intro h; simp [apply_update, h]

/-- The record produced by the C10 witness update. -/
def c10_out : MCPServer :=
  { id := "s1"
    config := { sample_config "alpha" 8765 with description := "x" }
    status := sample_status "s1" .stopped none
    created_at := 0
    updated_at := 5
    created_by := "u1" }

/-- Witness for C10 at a concrete input: a description-only patch leaves
id, status, name, port and created_by unchanged while updated_at moves to
the update time. -/
theorem c10_update_frame_witness :
    update_server [sample_server "s1" "alpha" 8765 .stopped none "u1"]
        "s1" c10_patch 5 = some ([c10_out], c10_out) ∧
    get_server [sample_server "s1" "alpha" 8765 .stopped none "u1"] "s1"
      = some (sample_server "s1" "alpha" 8765 .stopped none "u1") ∧
    c10_out.status = (sample_server "s1" "alpha" 8765 .stopped none "u1").status :=
  ⟨by decide, by decide,
   (c10_update_frame [sample_server "s1" "alpha" 8765 .stopped none "u1"]
     "s1" c10_patch 5 [c10_out] c10_out
     (sample_server "s1" "alpha" 8765 .stopped none "u1")
     (by decide) (by decide)).2.2.2.1⟩
